import Mathlib

/-!
Verification of the neural_sp ASR training pipeline specification against
the sources `neural_sp/models/seq2seq/encoders/subsampling.py` and
`neural_sp/bin/asr/train_main.py`.

The embedding is shallow: the length bookkeeping and the training-loop
state machine are translated into executable Lean definitions; tensor
payloads and learned modules (linear projections, convolutions, pooling of
values) are abstracted behind type parameters and transform functions,
since the claims under verification concern only control flow and length
arithmetic.
-/

namespace NeuralSp

/-! ## Subsampling layers (`subsampling.py`) -/

/-- Subsample by concatenating successive input frames
(`ConcatSubsampler.__init__`, line 19-24: stores `subsampling_factor`;
the learned `proj` linear layer is abstracted as a transform argument of
`forward`). -/
structure ConcatSubsampler where
  subsampling_factor : Nat
deriving DecidableEq, Repr

/-- `ConcatSubsampler.forward` (subsampling.py lines 26-49).
If `subsampling_factor == 1` the inputs are returned unchanged
(lines 37-38).  Otherwise the data tensor is grouped, concatenated and
projected (lines 40-45, abstracted as `transform` since it involves the
learned linear layer), and the lengths are recomputed by
`max(1, i // subsampling_factor)` (line 47, Python floor division on
non-negative lengths = `Nat` division). -/
def ConcatSubsampler.forward {α : Type} (m : ConcatSubsampler)
    (transform : α → α) (xs : α) (xlens : List Nat) : α × List Nat :=
  if m.subsampling_factor = 1 then (xs, xlens)
  else (transform xs,
        xlens.map fun L => max 1 (L / m.subsampling_factor))

/-- Subsample by 1d convolution and max-pooling
(`Conv1dSubsampler.__init__`, lines 55-69: the learned conv/pool modules
are abstracted; only the configuration fields are kept). -/
structure Conv1dSubsampler where
  subsampling_factor : Nat
  conv_kernel_size : Nat
deriving DecidableEq, Repr

/-- `Conv1dSubsampler.__init__` (subsampling.py lines 55-69).
Line 58 asserts `conv_kernel_size % 2 == 1`; a failing Python `assert`
raises immediately at construction time, modelled as `Except.error`. -/
def Conv1dSubsampler.init (subsampling_factor n_units : Nat)
    (conv_kernel_size : Nat) : Except String Conv1dSubsampler :=
  if conv_kernel_size % 2 = 1 then
    Except.ok ⟨subsampling_factor, conv_kernel_size⟩
  else
    Except.error "Kernel size should be odd for same conv."

/-- Modelled from the spec: `update_lens_1d` is imported from
`neural_sp/models/seq2seq/encoders/conv.py` (subsampling.py line 13),
which is not among the provided sources.  The spec gives the ceiling-mode
pooling length rule `xlens' = ceil(xlens / factor)`, consistent with
`ceil_mode=True` pooling; in `Nat` arithmetic for `factor > 0` this is
`(L + factor - 1) / factor`. -/
def update_lens_1d (xlens : List Nat) (factor : Nat) : List Nat :=
  xlens.map fun L => (L + factor - 1) / factor

/-- `Conv1dSubsampler.forward` (subsampling.py lines 71-89).
Identity when `subsampling_factor == 1` (lines 82-83); otherwise the data
passes through conv + relu + pool (lines 85-86, abstracted as `transform`)
and lengths through `update_lens_1d` (line 88). -/
def Conv1dSubsampler.forward {α : Type} (m : Conv1dSubsampler)
    (transform : α → α) (xs : α) (xlens : List Nat) : α × List Nat :=
  if m.subsampling_factor = 1 then (xs, xlens)
  else (transform xs, update_lens_1d xlens m.subsampling_factor)

/-- Subsample by dropping input frames (`DropSubsampler.__init__`,
lines 95-98). -/
structure DropSubsampler where
  subsampling_factor : Nat
deriving DecidableEq, Repr

/-- Stride slicing `xs[::factor]` applied to one sample's time axis
(subsampling.py line 114): keeps exactly the positions whose index is a
multiple of `factor`. -/
def strideEvery {V : Type} (factor : Nat) (seq : List V) : List V :=
  (seq.enum.filter fun p => p.1 % factor = 0).map Prod.snd

/-- `DropSubsampler.forward` (subsampling.py lines 100-118).
Identity when `subsampling_factor == 1` (lines 111-112); otherwise the
data is stride-sliced `xs[:, ::factor, :]` (line 114) and each length
becomes `max(1, math.ceil(L / factor))` (line 116), which in `Nat`
arithmetic is `max 1 ((L + factor - 1) / factor)`. -/
def DropSubsampler.forward {V : Type} (m : DropSubsampler)
    (xs : List (List V)) (xlens : List Nat) : List (List V) × List Nat :=
  if m.subsampling_factor = 1 then (xs, xlens)
  else (xs.map (strideEvery m.subsampling_factor),
        xlens.map fun L =>
          max 1 ((L + m.subsampling_factor - 1) / m.subsampling_factor))

/-- Subsample by max-pooling input frames (`MaxpoolSubsampler.__init__`,
lines 124-132; the pooling module is abstracted). -/
structure MaxpoolSubsampler where
  subsampling_factor : Nat
deriving DecidableEq, Repr

/-- `MaxpoolSubsampler.forward` (subsampling.py lines 134-151).
Identity when `subsampling_factor == 1` (lines 145-146); otherwise the
data is pooled (line 148, abstracted as `transform`) and lengths pass
through `update_lens_1d` (line 150). -/
def MaxpoolSubsampler.forward {α : Type} (m : MaxpoolSubsampler)
    (transform : α → α) (xs : α) (xlens : List Nat) : α × List Nat :=
  if m.subsampling_factor = 1 then (xs, xlens)
  else (transform xs, update_lens_1d xlens m.subsampling_factor)

/-! ## Multi-GPU prologue of `train()` (train_main.py lines 52-57, 73) -/

/-- The slice of the `args` namespace that the multi-GPU prologue of
`train()` reads and writes.  `batch_size` is an `Int` because the code
subtracts 10 from it unconditionally when `ngpus > 1`. -/
structure Args where
  ngpus : Nat
  batch_size : Int
  print_step : Nat
deriving DecidableEq, Repr

/-- train_main.py lines 54-57: when `args.ngpus > 1`, `train()` mutates
`args.batch_size -= 10` and `args.print_step //= args.ngpus` before
anything else; otherwise `args` is untouched. -/
def adjustForMultiGPU (args : Args) : Args :=
  if args.ngpus > 1 then
    { args with
      batch_size := args.batch_size - 10
      print_step := args.print_step / args.ngpus }
  else args

/-- train_main.py line 73: the training `Dataset` is constructed with
`batch_size=args.batch_size * args.ngpus`, reading `args` after the
multi-GPU adjustment has been applied. -/
def datasetBatchSize (args : Args) : Int :=
  (adjustForMultiGPU args).batch_size * ((adjustForMultiGPU args).ngpus : Int)

/-! ## Training loop state machine (`train_main.py` lines 223-443)

The loop is embedded at the granularity the claims need: the step counter
update `step += args.ngpus` (line 339) per updater call, and the
epoch-boundary block guarded by `is_new_epoch` (lines 342-443).  The dev
metric produced by the evaluators is an oracle function of the epoch
(its value comes from decoding the dev set, outside this embedding);
metrics are modelled as rationals since they are error-rate
percentages. -/

/-- Decidable prefix test on character lists, used to embed Python's
substring operator. -/
def isPrefixList : List Char → List Char → Bool
  | [], _ => true
  | _ :: _, [] => false
  | a :: as, b :: bs => a = b && isPrefixList as bs

/-- Decidable substring test on character lists. -/
def containsSub (pat : List Char) : List Char → Bool
  | [] => isPrefixList pat []
  | s@(_ :: rest) => isPrefixList pat s || containsSub pat rest

/-- Python substring test `pat in s`, used by the label-type dispatch
(`'char' in args.label_type`, train_main.py line 363). -/
def strContains (s pat : String) : Bool :=
  containsSub pat.data s.data

/-- Which evaluator the label-type dispatch selects
(train_main.py lines 356-368). -/
inductive EvalKind
  | word
  | wordpiece
  | charLike
  | phoneLike
deriving DecidableEq, Repr

/-- The label-type dispatch of the dev evaluation
(train_main.py lines 356-370): `word` and `wordpiece` by equality,
char-like and phone-like by substring, in this order; any other value
falls through to `raise ValueError(args.label_type)` (line 370),
modelled as `none`. -/
def classifyLabelType (label_type : String) : Option EvalKind :=
  if label_type = "word" then some EvalKind.word
  else if label_type = "wordpiece" then some EvalKind.wordpiece
  else if strContains label_type "char" then some EvalKind.charLike
  else if strContains label_type "phone" then some EvalKind.phoneLike
  else none

/-- The configuration fields of `args` that drive the loop control flow. -/
structure TrainConfig where
  ngpus : Nat
  label_type : String
  eval_start_epoch : Nat
  not_improved_patient_epoch : Nat
  convert_to_sgd_epoch : Nat
  num_epochs : Nat
deriving DecidableEq, Repr

/-- The mutable scalars of the loop: `epoch, step = 1, 0`
(line 223), `metric_dev_best = 100` (line 225),
`not_improved_epoch = 0` (line 300). -/
structure LoopState where
  epoch : Nat
  step : Nat
  metric_dev_best : ℚ
  not_improved_epoch : Nat
deriving DecidableEq

/-- Initial loop state (train_main.py lines 223-225, 300). -/
def initState : LoopState :=
  { epoch := 1, step := 0, metric_dev_best := 100, not_improved_epoch := 0 }

/-- Why the `while True` loop stopped: the early-stopping `break`
(line 419), the max-epoch `break` (line 437), or the uncaught
`ValueError(args.label_type)` (line 370). -/
inductive HaltReason
  | earlyStop
  | maxEpoch
  | labelTypeError (label_type : String)
deriving DecidableEq, Repr

/-- Observable events of one `is_new_epoch` block: which epoch it closed,
how many updater calls (training steps) ran during it, whether the dev
evaluation ran, whether `save_checkpoint` was called, whether the
optimizer was converted to SGD, the non-improvement counter and the best
metric after the block, and the halt reason if the loop stopped here. -/
structure EpochRecord where
  epoch : Nat
  trainUpdates : Nat
  evalRan : Bool
  checkpointed : Bool
  convertedToSGD : Bool
  notImprovedAfter : Nat
  bestAfter : ℚ
  halt : Option HaltReason
deriving DecidableEq, Repr

/-- `step += args.ngpus` (train_main.py line 339), executed once per
updater call (one optimizer update, synchronized across the `ngpus`
replicas by `CustomDataParallel`). -/
def stepAfterUpdate (step ngpus : Nat) : Nat :=
  step + ngpus

/-- The step counter after `u` consecutive updater calls. -/
def stepAfterUpdates : Nat → Nat → Nat → Nat
  | 0, step, _ => step
  | u + 1, step, ngpus => stepAfterUpdates u (stepAfterUpdate step ngpus) ngpus

/-- The `is_new_epoch` block (train_main.py lines 342-443) as a function
of the configuration, the loop state, and the dev metric the evaluators
would return for this epoch.  Returns the state for the next iteration
(meaningful only when the record's `halt` is `none`) and the record of
observable events.  Control flow mirrored from the source:
* lines 349-352: `epoch < eval_start_epoch` → checkpoint, no evaluation;
* lines 356-370: label-type dispatch; unknown label type raises;
* lines 372-403: improvement → update best, reset counter, decay,
  checkpoint (and decode the test sets);
* lines 404-412: no improvement → decay, increment counter;
* lines 418-419: early stop when the counter equals the patience;
* lines 421-431: convert to SGD when `epoch == convert_to_sgd_epoch`;
* lines 436-437: stop when `epoch == num_epochs`;
* line 443: `epoch += 1`. -/
def epochEnd (cfg : TrainConfig) (st : LoopState) (metric_dev : ℚ)
    (trainUpdates : Nat) : EpochRecord :=
  if st.epoch < cfg.eval_start_epoch then
    if st.epoch = cfg.num_epochs then
      ⟨st.epoch, trainUpdates, false, true, false,
       st.not_improved_epoch, st.metric_dev_best, some HaltReason.maxEpoch⟩
    else
      ⟨st.epoch, trainUpdates, false, true, false,
       st.not_improved_epoch, st.metric_dev_best, none⟩
  else
    match classifyLabelType cfg.label_type with
    | none =>
        ⟨st.epoch, trainUpdates, true, false, false,
         st.not_improved_epoch, st.metric_dev_best,
         some (HaltReason.labelTypeError cfg.label_type)⟩
    | some _ =>
        let improved := metric_dev < st.metric_dev_best
        let best' := if improved then metric_dev else st.metric_dev_best
        let ni' := if improved then 0 else st.not_improved_epoch + 1
        if ni' = cfg.not_improved_patient_epoch then
          ⟨st.epoch, trainUpdates, true, decide improved, false,
           ni', best', some HaltReason.earlyStop⟩
        else
          let converted := st.epoch = cfg.convert_to_sgd_epoch
          if st.epoch = cfg.num_epochs then
            ⟨st.epoch, trainUpdates, true, decide improved,
             decide converted, ni', best', some HaltReason.maxEpoch⟩
          else
            ⟨st.epoch, trainUpdates, true, decide improved,
             decide converted, ni', best', none⟩

/-- The loop state at the start of the next epoch, given the state after
an epoch's training steps and the record of its `is_new_epoch` block
(line 443: `epoch += 1`; `metric_dev_best` and `not_improved_epoch` as
the block left them; `step` is untouched by the block). -/
def nextState (st : LoopState) (rec : EpochRecord) : LoopState :=
  { epoch := rec.epoch + 1
    step := st.step
    metric_dev_best := rec.bestAfter
    not_improved_epoch := rec.notImprovedAfter }

/-- The `while True` loop (train_main.py lines 304-443) at epoch
granularity, driven by oracles: `metrics e` is the dev metric the
evaluators return at epoch `e`, `batches e` is the number of mini-batches
the dataset iterator yields for epoch `e` (each one updater call with
`step += ngpus` afterwards).  `fuel` bounds the number of epochs
executed, standing in for the unbounded `while True`; the returned list
holds one record per completed epoch block, ending with the first record
whose `halt` is set (or earlier if fuel runs out). -/
def runAux (cfg : TrainConfig) (metrics : Nat → ℚ) (batches : Nat → Nat) :
    Nat → LoopState → List EpochRecord
  | 0, _ => []
  | fuel + 1, st =>
    let u := batches st.epoch
    let st1 : LoopState :=
      { st with step := stepAfterUpdates u st.step cfg.ngpus }
    let r := epochEnd cfg st1 (metrics st1.epoch) u
    match r.halt with
    | some _ => [r]
    | none => r :: runAux cfg metrics batches fuel (nextState st1 r)

/-- A full training run from the initial state. -/
def runTraining (cfg : TrainConfig) (metrics : Nat → ℚ)
    (batches : Nat → Nat) (fuel : Nat) : List EpochRecord :=
  runAux cfg metrics batches fuel initState

/-! ## Helper lemmas about the epoch-end block and the run -/

theorem epochEnd_epoch (cfg : TrainConfig) (st : LoopState) (m : ℚ) (u : Nat)
    (r : EpochRecord) (hE : epochEnd cfg st m u = r) :
    r.epoch = st.epoch := by
  unfold epochEnd at hE
  dsimp only at hE
  repeat' split at hE
  all_goals subst hE
  all_goals simp_all

theorem epochEnd_eval_spec (cfg : TrainConfig) (st : LoopState) (m : ℚ) (u : Nat)
    (r : EpochRecord) (k : EvalKind)
    (hge : cfg.eval_start_epoch ≤ st.epoch)
    (hsome : classifyLabelType cfg.label_type = some k)
    (hE : epochEnd cfg st m u = r) :
    r.epoch = st.epoch ∧
    r.evalRan = true ∧
    (r.checkpointed = true ↔ m < st.metric_dev_best) ∧
    (r.notImprovedAfter = 0 ↔ m < st.metric_dev_best) ∧
    (¬ m < st.metric_dev_best → r.notImprovedAfter = st.not_improved_epoch + 1) ∧
    (r.halt = some HaltReason.earlyStop ↔
       r.notImprovedAfter = cfg.not_improved_patient_epoch) ∧
    (r.convertedToSGD = true ↔
       (¬ r.halt = some HaltReason.earlyStop ∧ st.epoch = cfg.convert_to_sgd_epoch)) ∧
    r.bestAfter = (if m < st.metric_dev_best then m else st.metric_dev_best) := by
  unfold epochEnd at hE
  rw [if_neg (Nat.not_lt.mpr hge), hsome] at hE
  dsimp only at hE
  by_cases hm : m < st.metric_dev_best <;>
    simp only [hm, ite_true, ite_false, iff_true, iff_false] at hE ⊢ <;>
    repeat' split at hE
  all_goals subst hE
  all_goals try simp_all
  all_goals omega

theorem epochEnd_cheap_spec (cfg : TrainConfig) (st : LoopState) (m : ℚ) (u : Nat)
    (r : EpochRecord)
    (hlt : st.epoch < cfg.eval_start_epoch)
    (hE : epochEnd cfg st m u = r) :
    r.epoch = st.epoch ∧ r.evalRan = false ∧ r.checkpointed = true ∧
    r.convertedToSGD = false ∧ r.notImprovedAfter = st.not_improved_epoch ∧
    r.bestAfter = st.metric_dev_best ∧
    (r.halt = none ∨ r.halt = some HaltReason.maxEpoch) := by
  unfold epochEnd at hE
  rw [if_pos hlt] at hE
  split at hE
  all_goals subst hE
  all_goals simp_all

theorem epochEnd_labelError_spec (cfg : TrainConfig) (st : LoopState) (m : ℚ) (u : Nat)
    (r : EpochRecord)
    (hge : cfg.eval_start_epoch ≤ st.epoch)
    (hnone : classifyLabelType cfg.label_type = none)
    (hE : epochEnd cfg st m u = r) :
    r.halt = some (HaltReason.labelTypeError cfg.label_type) ∧
    r.checkpointed = false ∧ r.convertedToSGD = false ∧ r.evalRan = true ∧
    r.notImprovedAfter = st.not_improved_epoch := by
  unfold epochEnd at hE
  rw [if_neg (Nat.not_lt.mpr hge), hnone] at hE
  dsimp only at hE
  subst hE
  simp_all

theorem epochEnd_earlyStop_counter (cfg : TrainConfig) (st : LoopState) (m : ℚ) (u : Nat)
    (r : EpochRecord) (hE : epochEnd cfg st m u = r)
    (h : r.halt = some HaltReason.earlyStop) :
    r.notImprovedAfter = cfg.not_improved_patient_epoch := by
  unfold epochEnd at hE
  dsimp only at hE
  repeat' split at hE
  all_goals subst hE
  all_goals simp_all

theorem epochEnd_continue_counter_ne (cfg : TrainConfig) (st : LoopState) (m : ℚ) (u : Nat)
    (r : EpochRecord) (hE : epochEnd cfg st m u = r)
    (h : r.halt = none)
    (hne : st.not_improved_epoch ≠ cfg.not_improved_patient_epoch) :
    r.notImprovedAfter ≠ cfg.not_improved_patient_epoch := by
  unfold epochEnd at hE
  dsimp only at hE
  repeat' split at hE
  all_goals subst hE
  all_goals simp_all

theorem epochEnd_converted_epoch (cfg : TrainConfig) (st : LoopState) (m : ℚ) (u : Nat)
    (r : EpochRecord) (hE : epochEnd cfg st m u = r)
    (h : r.convertedToSGD = true) :
    r.epoch = cfg.convert_to_sgd_epoch := by
  unfold epochEnd at hE
  dsimp only at hE
  repeat' split at hE
  all_goals subst hE
  all_goals simp_all

theorem runAux_get_record (cfg : TrainConfig) (metrics : Nat → ℚ) (batches : Nat → Nat) :
    ∀ (fuel : Nat) (st : LoopState) (k : Nat) (r : EpochRecord),
      (runAux cfg metrics batches fuel st).get? k = some r →
      ∃ st', st'.epoch = st.epoch + k ∧
        epochEnd cfg st' (metrics st'.epoch) (batches st'.epoch) = r := by
  intro fuel
  induction fuel with
  | zero => intro st k r h; simp [runAux] at h
  | succ n ih =>
    intro st k r h
    rw [runAux] at h
    dsimp only at h
    split at h
    · -- halted: singleton list
      match k with
      | 0 =>
        simp only [List.get?_cons_zero, Option.some.injEq] at h
        subst h
        exact ⟨_, by simp, rfl⟩
      | k' + 1 =>
        simp at h
    · -- continue: cons
      match k with
      | 0 =>
        simp only [List.get?_cons_zero, Option.some.injEq] at h
        subst h
        exact ⟨_, by simp, rfl⟩
      | k' + 1 =>
        simp only [List.get?_cons_succ] at h
        obtain ⟨st', hst', hr⟩ := ih _ k' r h
        refine ⟨st', ?_, hr⟩
        have he := epochEnd_epoch cfg
          { st with step := stepAfterUpdates (batches st.epoch) st.step cfg.ngpus }
          (metrics st.epoch) (batches st.epoch) _ rfl
        dsimp only at he
        simp only [nextState] at hst'
        omega

theorem runAux_counter_facts (cfg : TrainConfig) (metrics : Nat → ℚ) (batches : Nat → Nat) :
    ∀ (fuel : Nat) (st : LoopState),
      st.not_improved_epoch ≠ cfg.not_improved_patient_epoch →
      ∀ k r, (runAux cfg metrics batches fuel st).get? k = some r →
        (r.halt = some HaltReason.earlyStop →
           r.notImprovedAfter = cfg.not_improved_patient_epoch) ∧
        (r.halt = none → r.notImprovedAfter ≠ cfg.not_improved_patient_epoch) := by
  intro fuel
  induction fuel with
  | zero => intro st _ k r h; simp [runAux] at h
  | succ n ih =>
    intro st hne k r h
    rw [runAux] at h
    dsimp only at h
    split at h
    · rename_i val heq
      match k with
      | 0 =>
        simp only [List.get?_cons_zero, Option.some.injEq] at h
        subst h
        refine ⟨fun hh => epochEnd_earlyStop_counter cfg _ _ _ _ rfl hh, fun hh => ?_⟩
        rw [hh] at heq
        cases heq
      | k' + 1 => simp at h
    · rename_i heq
      match k with
      | 0 =>
        simp only [List.get?_cons_zero, Option.some.injEq] at h
        subst h
        refine ⟨fun hh => ?_, fun _ => ?_⟩
        · rw [hh] at heq; cases heq
        · exact epochEnd_continue_counter_ne cfg _ _ _ _ rfl heq hne
      | k' + 1 =>
        simp only [List.get?_cons_succ] at h
        exact ih _ (epochEnd_continue_counter_ne cfg _ _ _ _ rfl heq hne) k' r h

theorem runAux_halt_none_before (cfg : TrainConfig) (metrics : Nat → ℚ) (batches : Nat → Nat) :
    ∀ (fuel : Nat) (st : LoopState) (j k : Nat) (r r' : EpochRecord), j < k →
      (runAux cfg metrics batches fuel st).get? k = some r →
      (runAux cfg metrics batches fuel st).get? j = some r' →
      r'.halt = none := by
  intro fuel
  induction fuel with
  | zero => intro st j k r r' hjk hk hj; simp [runAux] at hk
  | succ n ih =>
    intro st j k r r' hjk hk hj
    rw [runAux] at hk hj
    dsimp only at hk hj
    rcases hhalt : (epochEnd cfg
        { st with step := stepAfterUpdates (batches st.epoch) st.step cfg.ngpus }
        (metrics st.epoch) (batches st.epoch)).halt with _ | val <;>
      simp only [hhalt] at hk hj
    · -- continue branch: cons
      match j, k with
      | 0, k'' + 1 =>
        simp only [List.get?_cons_zero, Option.some.injEq] at hj
        subst hj
        exact hhalt
      | j' + 1, k'' + 1 =>
        simp only [List.get?_cons_succ] at hk hj
        exact ih _ j' k'' r r' (by omega) hk hj
    · -- halted branch: singleton
      match k with
      | 0 => omega
      | k'' + 1 => simp at hk

/-! ## Claims about the subsamplers and the multi-GPU prologue -/

/-- C1 counterexample: the claim asserts `xlens'[i] = floor(xlens[i] / f)`
for every `xlens[i] >= 1` and `f > 1`, but `ConcatSubsampler.forward`
(subsampling.py line 47) computes `max(1, xlens[i] // f)`: at factor 2 and
input length 1 the code returns length 1 while the claimed floor is
`1 / 2 = 0`. -/
theorem claim_C1_counterexample :
    (ConcatSubsampler.forward ⟨2⟩ (fun x : Unit => x) () [1]).2 = [1] ∧
    (1 : Nat) / 2 = 0 := by
  exact ⟨rfl, rfl⟩

/-- C1 (amended): for every factor `f > 1`, `ConcatSubsampler.forward`
returns the length vector `map (fun L => max 1 (L / f)) xlens` — that is
`max(1, floor(xlens[i] / f))`, which agrees with the claimed plain floor
whenever `xlens[i] >= f`; the trailing incomplete group is dropped, never
rounded up, and with `f = 2` an input length of 7 yields 3. -/
theorem claim_C1 (f : Nat) (hf : 1 < f) (α : Type) (transform : α → α)
    (xs : α) (xlens : List Nat) :
    (ConcatSubsampler.forward ⟨f⟩ transform xs xlens).2 =
      xlens.map (fun L => max 1 (L / f)) ∧
    (∀ L, f ≤ L → max 1 (L / f) = L / f) := by
  constructor
  · simp [ConcatSubsampler.forward, Nat.ne_of_gt hf]
  · intro L hL
    have h1 : 1 ≤ L / f := (Nat.one_le_div_iff (by omega)).mpr hL
    omega

/-- C1 witness: factor 2, input length 7 gives output length 3. -/
theorem claim_C1_witness :
    1 < 2 ∧
    (ConcatSubsampler.forward ⟨2⟩ (fun x : Unit => x) () [7]).2 =
      [7].map (fun L => max 1 (L / 2)) ∧
    (ConcatSubsampler.forward ⟨2⟩ (fun x : Unit => x) () [7]).2 = [3] :=
  ⟨by decide, (claim_C1 2 (by decide) Unit (fun x => x) () [7]).1, by decide⟩

/-- C3 counterexample: the claim says the step counter is incremented
exactly once (by one) per optimizer update, but train_main.py line 339
executes `step += args.ngpus`: with 2 GPUs a single updater call moves the
counter from 0 to 2, not to 1. -/
theorem claim_C3_counterexample :
    stepAfterUpdate 0 2 = 2 ∧ stepAfterUpdate 0 2 ≠ 0 + 1 := by
  exact ⟨rfl, by decide⟩

/-- C3 (amended): the step counter is advanced by exactly `ngpus` per
updater call (`step += args.ngpus`, line 339); it is strictly increasing
whenever `ngpus >= 1`, and after `u` consecutive updater calls it has
grown by `u * ngpus`. -/
theorem claim_C3 (step ngpus : Nat) :
    stepAfterUpdate step ngpus = step + ngpus ∧
    (1 ≤ ngpus → step < stepAfterUpdate step ngpus) ∧
    (∀ u, stepAfterUpdates u step ngpus = step + u * ngpus) := by
  refine ⟨rfl, fun h => by simp only [stepAfterUpdate]; omega, fun u => ?_⟩
  induction u generalizing step with
  | zero => simp [stepAfterUpdates]
  | succ n ih =>
    simp only [stepAfterUpdates, stepAfterUpdate, ih]
    ring

/-- C3 witness: with 3 GPUs one update moves 5 to 8, and four updates
advance the counter by 12. -/
theorem claim_C3_witness :
    stepAfterUpdate 5 3 = 5 + 3 ∧ (1 ≤ 3 ∧ 5 < stepAfterUpdate 5 3) ∧
    stepAfterUpdates 4 5 3 = 5 + 4 * 3 :=
  ⟨(claim_C3 5 3).1, ⟨by decide, (claim_C3 5 3).2.1 (by decide)⟩,
   (claim_C3 5 3).2.2 4⟩

/-- C7: for every factor `f > 1`, `DropSubsampler.forward` maps each
length independently to `max 1 ((L + f - 1) / f)`, which is
`max(1, ceil(L / f))` in `Nat` arithmetic (`(L + f - 1) / f` is
definitionally Mathlib's ceiling division `L ⌈/⌉ f`); the `get?` form
shows sample `i`'s output length depends on `xlens[i]` alone. -/
theorem claim_C7 (f : Nat) (hf : 1 < f) (V : Type) (xs : List (List V))
    (xlens : List Nat) :
    (DropSubsampler.forward ⟨f⟩ xs xlens).2 =
      xlens.map (fun L => max 1 ((L + f - 1) / f)) ∧
    (∀ L : Nat, (L + f - 1) / f = L ⌈/⌉ f) ∧
    (∀ i, ((DropSubsampler.forward ⟨f⟩ xs xlens).2).get? i =
      (xlens.get? i).map (fun L => max 1 ((L + f - 1) / f))) := by
  have hmap : (DropSubsampler.forward ⟨f⟩ xs xlens).2 =
      xlens.map (fun L => max 1 ((L + f - 1) / f)) := by
    simp [DropSubsampler.forward, Nat.ne_of_gt hf]
  refine ⟨hmap, fun L => rfl, fun i => ?_⟩
  rw [hmap, List.get?_map]

/-- C7 witness: factor 3 on lengths `[1, 2, 3, 4]` yields `[1, 1, 1, 2]`. -/
theorem claim_C7_witness :
    1 < 3 ∧
    (DropSubsampler.forward ⟨3⟩ ([] : List (List Unit)) [1, 2, 3, 4]).2 =
      [1, 2, 3, 4].map (fun L => max 1 ((L + 3 - 1) / 3)) ∧
    (DropSubsampler.forward ⟨3⟩ ([] : List (List Unit)) [1, 2, 3, 4]).2 =
      [1, 1, 1, 2] :=
  ⟨by decide, (claim_C7 3 (by decide) Unit [] [1, 2, 3, 4]).1, by decide⟩

/-- C8: with `subsampling_factor = 1` all four subsamplers return the
input pair `(xs, xlens)` unchanged — the exact identity on data and
lengths (subsampling.py lines 37-38, 82-83, 111-112, 145-146). -/
theorem claim_C8 (α V : Type) (t1 t2 t3 : α → α) (ks : Nat) (xs : α)
    (xsd : List (List V)) (xlens : List Nat) :
    ConcatSubsampler.forward ⟨1⟩ t1 xs xlens = (xs, xlens) ∧
    Conv1dSubsampler.forward ⟨1, ks⟩ t2 xs xlens = (xs, xlens) ∧
    DropSubsampler.forward ⟨1⟩ xsd xlens = (xsd, xlens) ∧
    MaxpoolSubsampler.forward ⟨1⟩ t3 xs xlens = (xs, xlens) := by
  refine ⟨?_, ?_, ?_, ?_⟩ <;>
    simp [ConcatSubsampler.forward, Conv1dSubsampler.forward,
          DropSubsampler.forward, MaxpoolSubsampler.forward]

/-- C9: `Conv1dSubsampler.__init__` (subsampling.py line 58) rejects every
even convolution kernel size at construction time, for every subsampling
factor, and accepts every odd kernel size. -/
theorem claim_C9 (subsampling_factor n_units conv_kernel_size : Nat) :
    (conv_kernel_size % 2 = 0 →
       Conv1dSubsampler.init subsampling_factor n_units conv_kernel_size =
         Except.error "Kernel size should be odd for same conv.") ∧
    (conv_kernel_size % 2 = 1 →
       Conv1dSubsampler.init subsampling_factor n_units conv_kernel_size =
         Except.ok ⟨subsampling_factor, conv_kernel_size⟩) := by
  constructor <;> intro h <;> simp [Conv1dSubsampler.init, h]

/-- C9 witness: kernel size 4 is rejected, kernel size 5 accepted. -/
theorem claim_C9_witness :
    ((4 : Nat) % 2 = 0 ∧
      Conv1dSubsampler.init 2 16 4 =
        Except.error "Kernel size should be odd for same conv.") ∧
    ((5 : Nat) % 2 = 1 ∧
      Conv1dSubsampler.init 2 16 5 = Except.ok ⟨2, 5⟩) :=
  ⟨⟨by decide, (claim_C9 2 16 4).1 (by decide)⟩,
   ⟨by decide, (claim_C9 2 16 5).2 (by decide)⟩⟩

/-- C10: when `args.ngpus > 1`, `train()` (train_main.py lines 54-57)
decreases `batch_size` by exactly 10 and replaces `print_step` by its
integer quotient by `ngpus` before the datasets are built (the dataset
batch size of line 73 reads the adjusted value); with `ngpus <= 1` the
configuration is left unchanged. -/
theorem claim_C10 (args : Args) :
    (1 < args.ngpus →
       adjustForMultiGPU args =
         { args with batch_size := args.batch_size - 10
                     print_step := args.print_step / args.ngpus } ∧
       datasetBatchSize args = (args.batch_size - 10) * (args.ngpus : Int)) ∧
    (args.ngpus ≤ 1 →
       adjustForMultiGPU args = args ∧
       datasetBatchSize args = args.batch_size * (args.ngpus : Int)) := by
  constructor
  · intro h
    have hgt : args.ngpus > 1 := h
    constructor
    · simp [adjustForMultiGPU, hgt]
    · simp [datasetBatchSize, adjustForMultiGPU, hgt]
  · intro h
    have hle : ¬ args.ngpus > 1 := by omega
    constructor <;> simp [adjustForMultiGPU, datasetBatchSize, hle]

/-- C10 witness: 4 GPUs shrink `(batch_size, print_step) = (50, 200)` to
`(40, 50)` and the dataset sees batch size 160; with 1 GPU nothing
changes. -/
theorem claim_C10_witness :
    (1 < (4 : Nat) ∧
      adjustForMultiGPU ⟨4, 50, 200⟩ = ⟨4, 40, 50⟩ ∧
      datasetBatchSize ⟨4, 50, 200⟩ = 160) ∧
    ((1 : Nat) ≤ 1 ∧
      adjustForMultiGPU ⟨1, 50, 200⟩ = ⟨1, 50, 200⟩ ∧
      datasetBatchSize ⟨1, 50, 200⟩ = 50) :=
  ⟨⟨by decide, (claim_C10 ⟨4, 50, 200⟩).1 (by decide)⟩,
   ⟨by decide, (claim_C10 ⟨1, 50, 200⟩).2 (by decide)⟩⟩

/-! ## Claims about the training-loop state machine -/

/-- C2 counterexample: with `eval_start_epoch = 1` (evaluation active from
the first epoch), a run whose dev metric never improves (constant 100,
equal to the initial best) completes epochs 1 and 2 with the evaluation
having run but `save_checkpoint` never called — the eval branch of
train_main.py checkpoints only inside the improvement arm (line 385),
refuting "a checkpoint is written after every completed epoch". -/
theorem claim_C2_counterexample :
    runTraining ⟨1, "word", 1, 5, 100, 2⟩ (fun _ => (100 : ℚ)) (fun _ => 1) 5 =
      [⟨1, 1, true, false, false, 1, 100, none⟩,
       ⟨2, 1, true, false, false, 2, 100, some HaltReason.maxEpoch⟩] ∧
    (⟨1, 1, true, false, false, 1, 100, none⟩ : EpochRecord).evalRan = true ∧
    (⟨1, 1, true, false, false, 1, 100, none⟩ : EpochRecord).checkpointed = false := by
  exact ⟨by decide, rfl, rfl⟩

/-- C2 (amended): before `eval_start_epoch` every completed epoch writes a
checkpoint (train_main.py lines 349-352); from `eval_start_epoch` on, a
checkpoint is written after an epoch exactly when the dev metric strictly
improves on the best recorded value (lines 372-386) — non-improving
epochs write no checkpoint. -/
theorem claim_C2 (cfg : TrainConfig) (st : LoopState) (m : ℚ) (u : Nat)
    (k : EvalKind) (hsome : classifyLabelType cfg.label_type = some k) :
    (st.epoch < cfg.eval_start_epoch →
       (epochEnd cfg st m u).checkpointed = true) ∧
    (cfg.eval_start_epoch ≤ st.epoch →
       ((epochEnd cfg st m u).checkpointed = true ↔ m < st.metric_dev_best)) := by
  constructor
  · intro hlt
    exact (epochEnd_cheap_spec cfg st m u _ hlt rfl).2.2.1
  · intro hge
    exact (epochEnd_eval_spec cfg st m u _ k hge hsome rfl).2.2.1

/-- C2 witness: a pre-evaluation epoch checkpoints unconditionally; an
evaluation epoch with dev metric 50 against best 100 checkpoints exactly
because 50 < 100. -/
theorem claim_C2_witness :
    classifyLabelType "word" = some EvalKind.word ∧
    (1 < 2 ∧ (epochEnd ⟨1, "word", 2, 5, 100, 9⟩ initState 50 3).checkpointed = true) ∧
    (2 ≤ 3 ∧
      ((epochEnd ⟨1, "word", 2, 5, 100, 9⟩ ⟨3, 0, 100, 0⟩ 50 3).checkpointed = true ↔
        (50 : ℚ) < 100)) :=
  ⟨by decide,
   ⟨by decide,
    (claim_C2 ⟨1, "word", 2, 5, 100, 9⟩ initState 50 3 EvalKind.word (by decide)).1
      (by decide)⟩,
   ⟨by decide,
    (claim_C2 ⟨1, "word", 2, 5, 100, 9⟩ ⟨3, 0, 100, 0⟩ 50 3 EvalKind.word (by decide)).2
      (by decide)⟩⟩

/-- C4: at every epoch whose evaluation runs (epoch at or past
`eval_start_epoch` with a recognized label type), the non-improvement
counter becomes 0 exactly when the dev metric is strictly below the
best-so-far and becomes its old value plus one otherwise; the loop raises
the early-stop break at such an epoch exactly when the updated counter
equals `not_improved_patient_epoch`; and in a full run from the initial
state (patience at least 1) the early-stop epoch is the first whose
counter reaches the patience: the counter differs from the patience at
every earlier epoch. -/
theorem claim_C4 (cfg : TrainConfig) (st : LoopState) (m : ℚ) (u : Nat)
    (k : EvalKind) (metrics : Nat → ℚ) (batches : Nat → Nat)
    (fuel i j : Nat) (r r' : EpochRecord)
    (hpat : 1 ≤ cfg.not_improved_patient_epoch)
    (hge : cfg.eval_start_epoch ≤ st.epoch)
    (hsome : classifyLabelType cfg.label_type = some k)
    (hi : (runTraining cfg metrics batches fuel).get? i = some r)
    (hstop : r.halt = some HaltReason.earlyStop)
    (hji : j < i)
    (hj : (runTraining cfg metrics batches fuel).get? j = some r') :
    ((epochEnd cfg st m u).notImprovedAfter = 0 ↔ m < st.metric_dev_best) ∧
    (¬ m < st.metric_dev_best →
       (epochEnd cfg st m u).notImprovedAfter = st.not_improved_epoch + 1) ∧
    ((epochEnd cfg st m u).halt = some HaltReason.earlyStop ↔
       (epochEnd cfg st m u).notImprovedAfter = cfg.not_improved_patient_epoch) ∧
    r.notImprovedAfter = cfg.not_improved_patient_epoch ∧
    r'.notImprovedAfter ≠ cfg.not_improved_patient_epoch := by
  have he := epochEnd_eval_spec cfg st m u _ k hge hsome rfl
  have hinit : initState.not_improved_epoch ≠ cfg.not_improved_patient_epoch := by
    simp only [initState]
    omega
  have hcf := runAux_counter_facts cfg metrics batches fuel initState hinit
  refine ⟨he.2.2.2.1, he.2.2.2.2.1, he.2.2.2.2.2.1, ?_, ?_⟩
  · exact (hcf i r hi).1 hstop
  · have hnone : r'.halt = none :=
      runAux_halt_none_before cfg metrics batches fuel initState j i r r' hji hi hj
    exact (hcf j r' hj).2 hnone

/-- C4 witness: patience 2 with a never-improving metric: the counter
steps 1, 2 and the run early-stops at epoch 2, the first (and only) epoch
whose counter equals the patience; a separate improving evaluation
(metric 50 against best 100) resets the counter to 0. -/
theorem claim_C4_witness :
    1 ≤ 2 ∧ 1 ≤ 3 ∧ classifyLabelType "word" = some EvalKind.word ∧
    (runTraining ⟨1, "word", 1, 2, 100, 10⟩ (fun _ => (100 : ℚ)) (fun _ => 1) 5).get? 1 =
      some ⟨2, 1, true, false, false, 2, 100, some HaltReason.earlyStop⟩ ∧
    (runTraining ⟨1, "word", 1, 2, 100, 10⟩ (fun _ => (100 : ℚ)) (fun _ => 1) 5).get? 0 =
      some ⟨1, 1, true, false, false, 1, 100, none⟩ ∧
    (((epochEnd ⟨1, "word", 1, 2, 100, 10⟩ ⟨3, 0, 100, 0⟩ 50 2).notImprovedAfter = 0 ↔
        (50 : ℚ) < 100) ∧
     (¬ (50 : ℚ) < 100 →
        (epochEnd ⟨1, "word", 1, 2, 100, 10⟩ ⟨3, 0, 100, 0⟩ 50 2).notImprovedAfter = 0 + 1) ∧
     ((epochEnd ⟨1, "word", 1, 2, 100, 10⟩ ⟨3, 0, 100, 0⟩ 50 2).halt =
          some HaltReason.earlyStop ↔
        (epochEnd ⟨1, "word", 1, 2, 100, 10⟩ ⟨3, 0, 100, 0⟩ 50 2).notImprovedAfter = 2) ∧
     (⟨2, 1, true, false, false, 2, 100, some HaltReason.earlyStop⟩ : EpochRecord).notImprovedAfter = 2 ∧
     (⟨1, 1, true, false, false, 1, 100, none⟩ : EpochRecord).notImprovedAfter ≠ 2) :=
  ⟨by decide, by decide, by decide, by decide, by decide,
   claim_C4 ⟨1, "word", 1, 2, 100, 10⟩ ⟨3, 0, 100, 0⟩ 50 2 EvalKind.word
     (fun _ => (100 : ℚ)) (fun _ => 1) 5 1 0
     ⟨2, 1, true, false, false, 2, 100, some HaltReason.earlyStop⟩
     ⟨1, 1, true, false, false, 1, 100, none⟩
     (by decide) (by decide) (by decide) (by decide) (by decide) (by decide) (by decide)⟩

/-- C5 counterexample: with the unrecognized label type "foo" and
`eval_start_epoch = 2`, the whole first epoch (one training update)
completes without any error and even writes a checkpoint; the
`ValueError(args.label_type)` only surfaces at the end of epoch 2, the
first epoch whose evaluation runs — not at construction/validation time,
and not before training steps run. -/
theorem claim_C5_counterexample :
    runTraining ⟨1, "foo", 2, 5, 100, 3⟩ (fun _ => (100 : ℚ)) (fun _ => 1) 5 =
      [⟨1, 1, false, true, false, 0, 100, none⟩,
       ⟨2, 1, true, false, false, 0, 100, some (HaltReason.labelTypeError "foo")⟩] ∧
    classifyLabelType "foo" = none ∧
    (⟨1, 1, false, true, false, 0, 100, none⟩ : EpochRecord).trainUpdates = 1 ∧
    (⟨1, 1, false, true, false, 0, 100, none⟩ : EpochRecord).halt = none := by
  exact ⟨by decide, by decide, rfl, rfl⟩

/-- C5 (amended): an unrecognized label type raises
`ValueError(args.label_type)` — naming the offending value — at the end
of the first epoch at or past `eval_start_epoch` (train_main.py line
370), with no checkpoint written there; epochs before `eval_start_epoch`
run their training steps and checkpoint without any label-type check. -/
theorem claim_C5 (cfg : TrainConfig) (st : LoopState) (m : ℚ) (u : Nat)
    (hnone : classifyLabelType cfg.label_type = none) :
    (cfg.eval_start_epoch ≤ st.epoch →
       (epochEnd cfg st m u).halt = some (HaltReason.labelTypeError cfg.label_type) ∧
       (epochEnd cfg st m u).checkpointed = false) ∧
    (st.epoch < cfg.eval_start_epoch →
       (epochEnd cfg st m u).halt ≠ some (HaltReason.labelTypeError cfg.label_type) ∧
       (epochEnd cfg st m u).checkpointed = true) := by
  constructor
  · intro hge
    have h := epochEnd_labelError_spec cfg st m u _ hge hnone rfl
    exact ⟨h.1, h.2.1⟩
  · intro hlt
    have h := epochEnd_cheap_spec cfg st m u _ hlt rfl
    refine ⟨?_, h.2.2.1⟩
    rcases h.2.2.2.2.2.2 with h1 | h1 <;> simp [h1]

/-- C5 witness: label type "foo" halts the run with the label-type error
at an evaluation epoch, while a pre-evaluation epoch raises nothing. -/
theorem claim_C5_witness :
    classifyLabelType "foo" = none ∧
    (2 ≤ 2 ∧
      (epochEnd ⟨1, "foo", 2, 5, 100, 3⟩ ⟨2, 0, 100, 0⟩ 50 1).halt =
        some (HaltReason.labelTypeError "foo") ∧
      (epochEnd ⟨1, "foo", 2, 5, 100, 3⟩ ⟨2, 0, 100, 0⟩ 50 1).checkpointed = false) ∧
    (1 < 2 ∧
      (epochEnd ⟨1, "foo", 2, 5, 100, 3⟩ initState 50 1).halt ≠
        some (HaltReason.labelTypeError "foo") ∧
      (epochEnd ⟨1, "foo", 2, 5, 100, 3⟩ initState 50 1).checkpointed = true) :=
  ⟨by decide,
   ⟨by decide, (claim_C5 ⟨1, "foo", 2, 5, 100, 3⟩ ⟨2, 0, 100, 0⟩ 50 1 (by decide)).1
      (by decide)⟩,
   ⟨by decide, (claim_C5 ⟨1, "foo", 2, 5, 100, 3⟩ initState 50 1 (by decide)).2
      (by decide)⟩⟩

/-- C6 counterexample: with `convert_to_sgd_epoch = 1` but
`eval_start_epoch = 2`, the run completes epoch 1 (the configured
conversion epoch) and every later epoch without ever converting the
optimizer to SGD — the conversion check (train_main.py line 421) sits
inside the evaluation branch, which epoch 1 never enters, refuting "for
every configuration, when the epoch counter reaches convert_to_sgd_epoch
the training loop swaps the optimizer". -/
theorem claim_C6_counterexample :
    runTraining ⟨1, "word", 2, 5, 1, 3⟩ (fun _ => (100 : ℚ)) (fun _ => 1) 5 =
      [⟨1, 1, false, true, false, 0, 100, none⟩,
       ⟨2, 1, true, false, false, 1, 100, none⟩,
       ⟨3, 1, true, false, false, 2, 100, some HaltReason.maxEpoch⟩] ∧
    (⟨1, 1, false, true, false, 0, 100, none⟩ : EpochRecord).epoch = 1 ∧
    (⟨1, 1, false, true, false, 0, 100, none⟩ : EpochRecord).convertedToSGD = false ∧
    (runTraining ⟨1, "word", 2, 5, 1, 3⟩ (fun _ => (100 : ℚ)) (fun _ => 1) 5).map
        EpochRecord.convertedToSGD = [false, false, false] := by
  exact ⟨by decide, rfl, rfl, by decide⟩

/-- C6 (amended): the conversion to SGD never happens at an epoch before
`eval_start_epoch`; at an evaluation epoch with a recognized label type
it happens exactly when the epoch equals `convert_to_sgd_epoch` and the
early-stop break does not fire at that same epoch; and across a whole run
the conversion happens at most once — any two run records with the
conversion flag set are the same record, since each carries epoch
`convert_to_sgd_epoch` and run epochs strictly increase. -/
theorem claim_C6 (cfg : TrainConfig) (st : LoopState) (m : ℚ) (u : Nat)
    (k : EvalKind) (metrics : Nat → ℚ) (batches : Nat → Nat)
    (fuel i j : Nat) (r r' : EpochRecord)
    (hsome : classifyLabelType cfg.label_type = some k)
    (hi : (runTraining cfg metrics batches fuel).get? i = some r)
    (hj : (runTraining cfg metrics batches fuel).get? j = some r')
    (hci : r.convertedToSGD = true) (hcj : r'.convertedToSGD = true) :
    (st.epoch < cfg.eval_start_epoch →
       (epochEnd cfg st m u).convertedToSGD = false) ∧
    (cfg.eval_start_epoch ≤ st.epoch →
       ((epochEnd cfg st m u).convertedToSGD = true ↔
          (¬ (epochEnd cfg st m u).halt = some HaltReason.earlyStop ∧
           st.epoch = cfg.convert_to_sgd_epoch))) ∧
    r.epoch = cfg.convert_to_sgd_epoch ∧
    i = j := by
  obtain ⟨sti, hsti, hEi⟩ := runAux_get_record cfg metrics batches fuel initState i r hi
  obtain ⟨stj, hstj, hEj⟩ := runAux_get_record cfg metrics batches fuel initState j r' hj
  have hri : r.epoch = cfg.convert_to_sgd_epoch :=
    epochEnd_converted_epoch cfg sti _ _ r hEi hci
  have hrj : r'.epoch = cfg.convert_to_sgd_epoch :=
    epochEnd_converted_epoch cfg stj _ _ r' hEj hcj
  have hepi : r.epoch = sti.epoch := epochEnd_epoch cfg sti _ _ r hEi
  have hepj : r'.epoch = stj.epoch := epochEnd_epoch cfg stj _ _ r' hEj
  refine ⟨?_, ?_, hri, ?_⟩
  · intro hlt
    exact (epochEnd_cheap_spec cfg st m u _ hlt rfl).2.2.2.1
  · intro hge
    exact (epochEnd_eval_spec cfg st m u _ k hge hsome rfl).2.2.2.2.2.2.1
  · simp only [initState] at hsti hstj
    omega

/-- C6 witness: conversion epoch 3 with evaluation from epoch 2: the run
converts exactly at epoch 3 (record index 2), a pre-evaluation epoch
cannot convert, and at an evaluation epoch the conversion flag tracks
exactly "no early stop and epoch equals convert_to_sgd_epoch". -/
theorem claim_C6_witness :
    classifyLabelType "word" = some EvalKind.word ∧
    (runTraining ⟨1, "word", 2, 5, 3, 5⟩ (fun _ => (100 : ℚ)) (fun _ => 1) 9).get? 2 =
      some ⟨3, 1, true, false, true, 2, 100, none⟩ ∧
    (⟨3, 1, true, false, true, 2, 100, none⟩ : EpochRecord).convertedToSGD = true ∧
    (1 < 2 ∧
      (epochEnd ⟨1, "word", 2, 5, 3, 5⟩ ⟨1, 0, 100, 0⟩ 50 1).convertedToSGD = false) ∧
    (2 ≤ 4 ∧
      ((epochEnd ⟨1, "word", 2, 5, 3, 5⟩ ⟨4, 0, 100, 0⟩ 50 1).convertedToSGD = true ↔
         (¬ (epochEnd ⟨1, "word", 2, 5, 3, 5⟩ ⟨4, 0, 100, 0⟩ 50 1).halt =
              some HaltReason.earlyStop ∧ (4 : Nat) = 3))) ∧
    (⟨3, 1, true, false, true, 2, 100, none⟩ : EpochRecord).epoch = 3 ∧
    (2 : Nat) = 2 :=
  ⟨by decide, by decide, rfl,
   ⟨by decide,
    (claim_C6 ⟨1, "word", 2, 5, 3, 5⟩ ⟨1, 0, 100, 0⟩ 50 1 EvalKind.word
       (fun _ => (100 : ℚ)) (fun _ => 1) 9 2 2
       ⟨3, 1, true, false, true, 2, 100, none⟩ ⟨3, 1, true, false, true, 2, 100, none⟩
       (by decide) (by decide) (by decide) (by decide) (by decide)).1 (by decide)⟩,
   ⟨by decide,
    (claim_C6 ⟨1, "word", 2, 5, 3, 5⟩ ⟨4, 0, 100, 0⟩ 50 1 EvalKind.word
       (fun _ => (100 : ℚ)) (fun _ => 1) 9 2 2
       ⟨3, 1, true, false, true, 2, 100, none⟩ ⟨3, 1, true, false, true, 2, 100, none⟩
       (by decide) (by decide) (by decide) (by decide) (by decide)).2.1 (by decide)⟩,
   (claim_C6 ⟨1, "word", 2, 5, 3, 5⟩ ⟨1, 0, 100, 0⟩ 50 1 EvalKind.word
       (fun _ => (100 : ℚ)) (fun _ => 1) 9 2 2
       ⟨3, 1, true, false, true, 2, 100, none⟩ ⟨3, 1, true, false, true, 2, 100, none⟩
       (by decide) (by decide) (by decide) (by decide) (by decide)).2.2.1,
   (claim_C6 ⟨1, "word", 2, 5, 3, 5⟩ ⟨1, 0, 100, 0⟩ 50 1 EvalKind.word
       (fun _ => (100 : ℚ)) (fun _ => 1) 9 2 2
       ⟨3, 1, true, false, true, 2, 100, none⟩ ⟨3, 1, true, false, true, 2, 100, none⟩
       (by decide) (by decide) (by decide) (by decide) (by decide)).2.2.2⟩

end NeuralSp
